import Mathlib

/-!
Shallow embedding of the battery/firmware protocol core of the
glorious-mouse-battery-system-tray application
(src/src-tauri/src/mouse_battery.rs), together with theorems settling
the specification claims about it.

Bytes are modelled as `Nat` (no arithmetic is performed on them, only
comparisons, so no wrap-around can occur).  A 65-byte HID feature-report
buffer is modelled as `Fin 65 → Nat`.  The HID transport (send and
receive of feature reports) is an external effect; it is modelled by
passing its outcome explicitly: a `Bool` for whether the send succeeded
and an `Option` buffer for the result of the read.
-/

namespace GloriousMouse

/-- Rust `Iterator::position`: index of the first element satisfying the
predicate. -/
def listPosition (p : α → Bool) : List α → Option Nat
  | [] => none
  | a :: l => if p a then some 0 else (listPosition p l).map (· + 1)

/-- Mirrors `struct MouseConfig \x7b product_id: u16, name: &str, is_wired: bool \x7d`. -/
structure MouseConfig where
  product_id : Nat
  name : String
  is_wired : Bool
deriving DecidableEq

/-- Mirrors the static `SUPPORTED_MICE` table. -/
def SUPPORTED_MICE : List MouseConfig :=
  [ ⟨0x2011, "Model O Wired", true⟩,
    ⟨0x2022, "Model O Wireless", false⟩,
    ⟨0x2027, "Model O PRO Wireless", false⟩,
    ⟨0x2034, "Model D 2 PRO Wireless", false⟩ ]

/-- Mirrors `MouseConfig::from_product_id` (`iter().find(...)`). -/
def MouseConfig.from_product_id (product_id : Nat) : Option MouseConfig :=
  SUPPORTED_MICE.find? (fun m => m.product_id == product_id)

/-- Mirrors `MouseConfig::all_product_ids`. -/
def MouseConfig.all_product_ids : List Nat :=
  SUPPORTED_MICE.map (fun m => m.product_id)

/-- Mirrors `struct MouseModel \x7b config_index: Option<usize> \x7d`. -/
structure MouseModel where
  config_index : Option Nat
deriving DecidableEq

/-- Mirrors `MouseModel::from_product_id` (`iter().position(...)`). -/
def MouseModel.from_product_id (product_id : Nat) : MouseModel :=
  ⟨listPosition (fun m => m.product_id == product_id) SUPPORTED_MICE⟩

/-- Mirrors `MouseModel::config` (`config_index.map(|i| &SUPPORTED_MICE[i])`).
The Rust indexing panics for an out-of-range index; the model totalizes it
with `List.get?`, which agrees with the Rust code on every index that does
not panic. -/
def MouseModel.config (m : MouseModel) : Option MouseConfig :=
  m.config_index.bind (fun i => SUPPORTED_MICE.get? i)

/-- Mirrors `MouseModel::name`. -/
def MouseModel.name (m : MouseModel) : String :=
  (m.config.map (fun c => c.name)).getD "Unknown Mouse"

/-- Mirrors `MouseModel::is_wired`. -/
def MouseModel.is_wired (m : MouseModel) : Bool :=
  (m.config.map (fun c => c.is_wired)).getD false

/-- Mirrors `impl Serialize for MouseModel`: the model is serialized as its
config name, or the literal `"Unknown Mouse"` when unrecognized. -/
def MouseModel.serialize (m : MouseModel) : String :=
  match m.config with
  | some config => config.name
  | none => "Unknown Mouse"

/-- Mirrors `impl Deserialize for MouseModel`: look the name up by position
in `SUPPORTED_MICE`. -/
def MouseModel.deserialize (name : String) : MouseModel :=
  ⟨listPosition (fun m => m.name == name) SUPPORTED_MICE⟩

/-- A 65-byte HID feature-report buffer (1 report-id byte + 64 payload bytes). -/
abbrev Buffer := Fin 65 → Nat

/-- Mirrors `enum BatteryStatus`. -/
inductive BatteryStatus where
  | Normal (percentage : Nat) (mouse_model : MouseModel)
  | Charging (percentage : Nat) (mouse_model : MouseModel)
  | FullyCharged (mouse_model : MouseModel)
  | Asleep (mouse_model : MouseModel)
  | WakingUp (mouse_model : MouseModel)
  | NotFound
  | Unknown (raw_status : Nat) (raw_battery : Nat) (mouse_model : MouseModel)
deriving DecidableEq

/-- The `if percentage == 0 \x7b percentage = 1; \x7d` step of
`read_battery_status`. -/
def coercePercentage (raw : Nat) : Nat :=
  if raw = 0 then 1 else raw

/-- The `[0xA1, 0xA4, 0xA2, 0xA0, 0xA3].iter().position(|&s| s == bfr_r[1])`
step of `read_battery_status`. -/
def statusPosition (b1 : Nat) : Option Nat :=
  listPosition (fun s => s == b1) [0xA1, 0xA4, 0xA2, 0xA0, 0xA3]

/-- The pure decode tail of `read_battery_status`, applied to a successfully
read response buffer `bfr_r`. -/
def decodeBattery (bfr_r : Buffer) (wired : Bool) (mouse_model : MouseModel) :
    BatteryStatus :=
  let percentage := coercePercentage (bfr_r 8)
  let status := statusPosition (bfr_r 1)
  let status := if bfr_r 6 ≠ 0x83 then some 2 else status
  match status, wired with
  | some 0, false => .Normal percentage mouse_model
  | some 0, true =>
      if 100 ≤ percentage then .FullyCharged mouse_model
      else .Charging percentage mouse_model
  | some 1, _ => .Asleep mouse_model
  | some 3, _ => .WakingUp mouse_model
  | _, _ => .Unknown (bfr_r 1) (bfr_r 8) mouse_model

/-- Mirrors `read_battery_status`.  The transport outcomes are passed in:
`send_ok` is whether `send_feature_report` succeeded, `read_result` is
`some bfr_r` when `get_feature_report` succeeded and `none` when it failed. -/
def read_battery_status (send_ok : Bool) (read_result : Option Buffer)
    (wired : Bool) (mouse_model : MouseModel) : BatteryStatus :=
  if send_ok then
    match read_result with
    | none => .Unknown 0 0 mouse_model
    | some bfr_r => decodeBattery bfr_r wired mouse_model
  else .Unknown 0 0 mouse_model

/-- The fields of `hidapi::DeviceInfo` that `find_device` inspects.
`interface_number` is an `i32` in hidapi, hence `Int`. -/
structure DeviceInfo where
  vendor_id : Nat
  product_id : Nat
  interface_number : Int
deriving DecidableEq

/-- The filter predicate of `find_device`: Glorious vendor id, supported
product id, feature-report interface. -/
def device_matches (d : DeviceInfo) : Bool :=
  d.vendor_id == 0x258A &&
  MouseConfig.all_product_ids.contains d.product_id &&
  d.interface_number == 0x02

/-- The comparison key of the `min_by` in `find_device`: wired mice rank 0,
wireless rank 1, unrecognized rank 2, tie-broken by product id. -/
def device_key (d : DeviceInfo) : Nat × Nat :=
  ( match MouseConfig.from_product_id d.product_id with
    | some c => if c.is_wired then 0 else 1
    | none => 2,
    d.product_id )

/-- Lexicographic less-or-equal on `min_by` keys. -/
def keyLe (a b : Nat × Nat) : Prop :=
  a.1 < b.1 ∨ (a.1 = b.1 ∧ a.2 ≤ b.2)

instance (a b : Nat × Nat) : Decidable (keyLe a b) := by
  unfold keyLe; infer_instance

/-- `compare(a, b) != Greater` for the comparator passed to `min_by`. -/
def device_le (a b : DeviceInfo) : Bool :=
  decide (keyLe (device_key a) (device_key b))

/-- The fold underlying Rust `Iterator::min_by`: the accumulator is kept
when the comparison is `Less` or `Equal`, so of equally minimal elements
the earliest survives. -/
def minFold (le : α → α → Bool) (d : α) (ds : List α) : α :=
  ds.foldl (fun acc x => if le acc x then acc else x) d

/-- Rust `Iterator::min_by` over a list. -/
def rust_min_by (le : α → α → Bool) : List α → Option α
  | [] => none
  | d :: ds => some (minFold le d ds)

/-- Mirrors `find_device`, on an explicit enumeration list. -/
def find_device (devices : List DeviceInfo) : Option DeviceInfo :=
  rust_min_by device_le (devices.filter device_matches)

/-- Mirrors `get_battery_status`.  `open_ok` is whether `open_device`
succeeded; the transport outcomes of the inner query are passed through to
`read_battery_status`. -/
def get_battery_status (devices : List DeviceInfo) (open_ok : Bool)
    (send_ok : Bool) (read_result : Option Buffer) : BatteryStatus :=
  match find_device devices with
  | none => .NotFound
  | some device_info =>
      let mouse_model := MouseModel.from_product_id device_info.product_id
      let wired := mouse_model.is_wired
      if open_ok then read_battery_status send_ok read_result wired mouse_model
      else .NotFound

/-- The `format!` of `get_firmware_version`: dotted join of bytes 7..10. -/
def firmware_version_string (bfr_r : Buffer) : String :=
  Nat.repr (bfr_r 7) ++ "." ++ Nat.repr (bfr_r 8) ++ "." ++
    Nat.repr (bfr_r 9) ++ "." ++ Nat.repr (bfr_r 10)

/-- Mirrors `get_firmware_version`, with the open and transport outcomes
passed in explicitly; every failure short-circuits to `none` via `ok()?`. -/
def get_firmware_version (devices : List DeviceInfo) (open_ok : Bool)
    (send_ok : Bool) (read_result : Option Buffer) : Option String :=
  match find_device devices with
  | none => none
  | some _ =>
      if open_ok then
        if send_ok then
          match read_result with
          | none => none
          | some bfr_r => some (firmware_version_string bfr_r)
        else none
      else none

/-- Mirrors `BatteryStatus::get_icon_name`. -/
def get_icon_name : BatteryStatus → String
  | .Charging percentage _ =>
      if 100 ≤ percentage then "battery_100" else "battery_charging"
  | .Normal percentage _ =>
      if percentage ≤ 25 then "battery_0"
      else if percentage ≤ 50 then "battery_25"
      else if percentage ≤ 75 then "battery_50"
      else "battery_75"
  | .FullyCharged _ => "battery_100"
  | _ => "battery_unknown"

/-- Mirrors `BatteryStatus::get_mouse_model`. -/
def get_mouse_model : BatteryStatus → Option MouseModel
  | .Normal _ mouse_model => some mouse_model
  | .Charging _ mouse_model => some mouse_model
  | .FullyCharged mouse_model => some mouse_model
  | .Asleep mouse_model => some mouse_model
  | .WakingUp mouse_model => some mouse_model
  | .Unknown _ _ mouse_model => some mouse_model
  | .NotFound => none

/-- Mirrors `BatteryStatus::get_tooltip`. -/
def get_tooltip (s : BatteryStatus) : String :=
  let mouse_name := ((get_mouse_model s).map MouseModel.name).getD "Mouse"
  match s with
  | .Normal percentage _ => mouse_name ++ ": " ++ Nat.repr percentage ++ "%"
  | .Charging percentage _ =>
      mouse_name ++ ": " ++ Nat.repr percentage ++ "% (Charging)"
  | .FullyCharged _ => mouse_name ++ ": Fully Charged"
  | .Asleep _ => mouse_name ++ ": Mouse is asleep"
  | .WakingUp _ => mouse_name ++ ": Waking up..."
  | .NotFound => "Mouse: Device not found"
  | .Unknown _ _ _ => mouse_name ++ ": Unknown status"

/-! Characterization lemmas for the battery decode. -/

lemma statusPosition_eq (b1 : Nat) :
    statusPosition b1 =
      if b1 = 0xA1 then some 0
      else if b1 = 0xA4 then some 1
      else if b1 = 0xA2 then some 2
      else if b1 = 0xA0 then some 3
      else if b1 = 0xA3 then some 4
      else none := by
  simp only [statusPosition, listPosition, beq_iff_eq]
  by_cases h1 : b1 = 0xA1 <;> by_cases h2 : b1 = 0xA4 <;>
    by_cases h3 : b1 = 0xA2 <;> by_cases h4 : b1 = 0xA0 <;>
    by_cases h5 : b1 = 0xA3 <;>
    simp_all [eq_comm]

lemma decodeBattery_eq (bfr_r : Buffer) (wired : Bool) (m : MouseModel) :
    decodeBattery bfr_r wired m =
      if bfr_r 6 ≠ 0x83 then .Unknown (bfr_r 1) (bfr_r 8) m
      else if bfr_r 1 = 0xA1 then
        (if wired then
          (if 100 ≤ coercePercentage (bfr_r 8) then .FullyCharged m
           else .Charging (coercePercentage (bfr_r 8)) m)
         else .Normal (coercePercentage (bfr_r 8)) m)
      else if bfr_r 1 = 0xA4 then .Asleep m
      else if bfr_r 1 = 0xA0 then .WakingUp m
      else .Unknown (bfr_r 1) (bfr_r 8) m := by
  by_cases h6 : bfr_r 6 = 0x83
  · by_cases h1 : bfr_r 1 = 0xA1 <;> by_cases h2 : bfr_r 1 = 0xA4 <;>
      by_cases h3 : bfr_r 1 = 0xA2 <;> by_cases h4 : bfr_r 1 = 0xA0 <;>
      by_cases h5 : bfr_r 1 = 0xA3 <;> cases wired <;>
      simp_all [decodeBattery, statusPosition_eq]
  · cases wired <;> simp_all [decodeBattery]

/-- Claim C1: the battery decode resolves by first locating byte 1 in the
ordered table [0xA1, 0xA4, 0xA2, 0xA0, 0xA3] (position forced to 2 whenever
byte 6 is not 0x83); position 0 yields Normal when wireless and
FullyCharged-or-Charging (split at coerced percentage 100) when wired,
position 1 yields Asleep, position 3 yields WakingUp, and every other case —
position 2 (byte 0xA2 or a bad echo tag), position 4 (byte 0xA3), or a byte
absent from the table — yields Unknown carrying raw byte 1 and raw byte 8. -/
theorem battery_decode_table (bfr_r : Buffer) (wired : Bool) (m : MouseModel) :
    (bfr_r 6 = 0x83 → bfr_r 1 = 0xA1 → wired = false →
      decodeBattery bfr_r wired m = .Normal (coercePercentage (bfr_r 8)) m) ∧
    (bfr_r 6 = 0x83 → bfr_r 1 = 0xA1 → wired = true →
      100 ≤ coercePercentage (bfr_r 8) →
      decodeBattery bfr_r wired m = .FullyCharged m) ∧
    (bfr_r 6 = 0x83 → bfr_r 1 = 0xA1 → wired = true →
      coercePercentage (bfr_r 8) < 100 →
      decodeBattery bfr_r wired m = .Charging (coercePercentage (bfr_r 8)) m) ∧
    (bfr_r 6 = 0x83 → bfr_r 1 = 0xA4 →
      decodeBattery bfr_r wired m = .Asleep m) ∧
    (bfr_r 6 = 0x83 → bfr_r 1 = 0xA0 →
      decodeBattery bfr_r wired m = .WakingUp m) ∧
    (bfr_r 6 = 0x83 → bfr_r 1 = 0xA2 →
      decodeBattery bfr_r wired m = .Unknown (bfr_r 1) (bfr_r 8) m) ∧
    (bfr_r 6 = 0x83 → bfr_r 1 = 0xA3 →
      decodeBattery bfr_r wired m = .Unknown (bfr_r 1) (bfr_r 8) m) ∧
    (bfr_r 6 = 0x83 → statusPosition (bfr_r 1) = none →
      decodeBattery bfr_r wired m = .Unknown (bfr_r 1) (bfr_r 8) m) ∧
    (bfr_r 6 ≠ 0x83 →
      decodeBattery bfr_r wired m = .Unknown (bfr_r 1) (bfr_r 8) m) := by
  rw [decodeBattery_eq]
  refine ⟨?_, ?_, ?_, ?_, ?_, ?_, ?_, ?_, ?_⟩
  · intro h6 h1 hw; simp [h6, h1, hw]
  · intro h6 h1 hw hp; simp [h6, h1, hw, hp]
  · intro h6 h1 hw hp; simp [h6, h1, hw, Nat.not_le.mpr hp]
  · intro h6 h1; simp [h6, h1]
  · intro h6 h1; simp [h6, h1]
  · intro h6 h1
    have hne1 : bfr_r 1 ≠ 0xA1 := by simp [h1]
    have hne4 : bfr_r 1 ≠ 0xA4 := by simp [h1]
    have hne0 : bfr_r 1 ≠ 0xA0 := by simp [h1]
    simp [h6, hne1, hne4, hne0]
  · intro h6 h1
    have hne1 : bfr_r 1 ≠ 0xA1 := by simp [h1]
    have hne4 : bfr_r 1 ≠ 0xA4 := by simp [h1]
    have hne0 : bfr_r 1 ≠ 0xA0 := by simp [h1]
    simp [h6, hne1, hne4, hne0]
  · intro h6 hp
    rw [statusPosition_eq] at hp
    split_ifs at hp with h1 h2 h3 h4 h5
    simp [h6, h1, h2, h4]
  · intro h6; simp [h6]

/-- Witness for C1: a wireless response with status byte 0xA1, echo tag 0x83
and raw percentage 42 decodes to Normal with percentage 42. -/
theorem battery_decode_table_witness :
    decodeBattery
      (fun i => if i = 1 then 0xA1 else if i = 6 then 0x83
                else if i = 8 then 42 else 0)
      false ⟨some 1⟩ =
      .Normal 42 ⟨some 1⟩ := by
  have h := (battery_decode_table
      (fun i => if i = 1 then 0xA1 else if i = 6 then 0x83
                else if i = 8 then 42 else 0)
      false ⟨some 1⟩).1 (by decide) (by decide) rfl
  rw [h]; decide

/-- Claim C2: the percentage carried by a Normal or Charging result, and the
percentage tested against 100 for the FullyCharged split, is the coerced raw
battery byte: a raw byte of 0 becomes 1, and any raw byte in [1, 100] is used
unchanged. -/
theorem battery_percentage_coercion (bfr_r : Buffer) (wired : Bool)
    (m : MouseModel) :
    (bfr_r 8 = 0 → coercePercentage (bfr_r 8) = 1) ∧
    (1 ≤ bfr_r 8 → bfr_r 8 ≤ 100 → coercePercentage (bfr_r 8) = bfr_r 8) ∧
    (∀ p m', decodeBattery bfr_r wired m = .Normal p m' →
      p = coercePercentage (bfr_r 8)) ∧
    (∀ p m', decodeBattery bfr_r wired m = .Charging p m' →
      p = coercePercentage (bfr_r 8)) ∧
    (∀ m', decodeBattery bfr_r wired m = .FullyCharged m' →
      100 ≤ coercePercentage (bfr_r 8)) := by
  refine ⟨?_, ?_, ?_, ?_, ?_⟩
  · intro h; simp [coercePercentage, h]
  · intro h _; simp [coercePercentage]; omega
  · intro p m' h
    rw [decodeBattery_eq] at h
    split_ifs at h
    simp_all
  · intro p m' h
    rw [decodeBattery_eq] at h
    split_ifs at h
    simp_all
  · intro m' h
    rw [decodeBattery_eq] at h
    split_ifs at h
    simp_all

/-- Witness for C2: applying the coercion facts at a response with raw
battery byte 0 read by a wireless mouse. -/
theorem battery_percentage_coercion_witness :
    coercePercentage
      ((fun i => if i = 1 then 0xA1 else if i = 6 then 0x83 else 0)
        (8 : Fin 65)) = 1 :=
  (battery_percentage_coercion
      (fun i => if i = 1 then 0xA1 else if i = 6 then 0x83 else 0)
      false ⟨none⟩).1 (by decide)

/-- Counterexample to C3 as stated: a wireless response with status byte
0xA1, echo tag 0x83 and raw battery byte 200 decodes to Normal with
percentage 200, which is outside [1, 100] — the decode only coerces 0 up to
1 and never clamps the upper end. -/
theorem percentage_invariant_counterexample :
    decodeBattery
      (fun i => if i = 1 then 0xA1 else if i = 6 then 0x83
                else if i = 8 then 200 else 0)
      false ⟨none⟩ =
      .Normal 200 ⟨none⟩ ∧ ¬ (200 : Nat) ≤ 100 := by
  constructor
  · decide
  · decide

/-- Claim C3 amended: every Normal or Charging value produced by the battery
decode carries a percentage of at least 1; a Charging percentage is moreover
at most 99; and a Normal percentage is at most 100 whenever the raw battery
byte is at most 100 (the decode never clamps a raw byte above 100). -/
theorem percentage_invariant_amended (bfr_r : Buffer) (wired : Bool)
    (m : MouseModel) :
    (∀ p m', decodeBattery bfr_r wired m = .Normal p m' →
      1 ≤ p ∧ (bfr_r 8 ≤ 100 → p ≤ 100)) ∧
    (∀ p m', decodeBattery bfr_r wired m = .Charging p m' →
      1 ≤ p ∧ p ≤ 99) := by
  have hc1 : 1 ≤ coercePercentage (bfr_r 8) := by
    simp [coercePercentage]; split <;> omega
  have hc2 : bfr_r 8 ≤ 100 → coercePercentage (bfr_r 8) ≤ 100 := by
    intro h; simp [coercePercentage]; split <;> omega
  constructor
  · intro p m' h
    rw [decodeBattery_eq] at h
    split_ifs at h
    simp_all
  · intro p m' h
    rw [decodeBattery_eq] at h
    split_ifs at h with h6 h1 hw hp
    simp only [BatteryStatus.Charging.injEq] at h
    omega

/-- Witness for the amended C3: a wireless response with raw battery byte 0
decodes to Normal with percentage 1, which is at least 1 and at most 100. -/
theorem percentage_invariant_amended_witness :
    (1 : Nat) ≤ 1 ∧
      ((fun i => if i = 1 then 0xA1 else if i = 6 then 0x83 else 0)
          (8 : Fin 65) ≤ 100 → (1 : Nat) ≤ 100) :=
  (percentage_invariant_amended
      (fun i => if i = 1 then 0xA1 else if i = 6 then 0x83 else 0)
      false ⟨none⟩).1 1 ⟨none⟩ (by decide)

/-! Lemmas about the `min_by` selection of `find_device`. -/

lemma minFold_mem (le : α → α → Bool) (d : α) (ds : List α) :
    minFold le d ds = d ∨ minFold le d ds ∈ ds := by
  induction ds generalizing d with
  | nil => left; rfl
  | cons x ds ih =>
      have hfold : minFold le d (x :: ds) =
          minFold le (if le d x then d else x) ds := rfl
      rw [hfold]
      rcases ih (if le d x then d else x) with h | h
      · rw [h]; split
        · left; rfl
        · right; exact List.mem_cons_self x ds
      · right; exact List.mem_cons_of_mem x h

lemma minFold_le (le : α → α → Bool)
    (htot : ∀ a b, le a b = true ∨ le b a = true)
    (htrans : ∀ a b c, le a b = true → le b c = true → le a c = true)
    (d : α) (ds : List α) :
    le (minFold le d ds) d = true ∧
      ∀ x ∈ ds, le (minFold le d ds) x = true := by
  induction ds generalizing d with
  | nil =>
      refine ⟨?_, by intro x hx; simp at hx⟩
      rcases htot d d with h | h <;> exact h
  | cons x ds ih =>
      have hfold : minFold le d (x :: ds) =
          minFold le (if le d x then d else x) ds := rfl
      by_cases hdx : le d x = true
      · rw [hfold, if_pos hdx]
        obtain ⟨h1, h2⟩ := ih d
        refine ⟨h1, ?_⟩
        intro y hy
        rcases List.mem_cons.mp hy with rfl | hy
        · exact htrans _ _ _ h1 hdx
        · exact h2 y hy
      · have hxd : le x d = true := by
          rcases htot d x with h | h
          · exact absurd h hdx
          · exact h
        rw [hfold, if_neg hdx]
        obtain ⟨h1, h2⟩ := ih x
        refine ⟨htrans _ _ _ h1 hxd, ?_⟩
        intro y hy
        rcases List.mem_cons.mp hy with rfl | hy
        · exact h1
        · exact h2 y hy

lemma keyLe_total (a b : Nat × Nat) : keyLe a b ∨ keyLe b a := by
  unfold keyLe; omega

lemma keyLe_trans (a b c : Nat × Nat) :
    keyLe a b → keyLe b c → keyLe a c := by
  unfold keyLe; omega

lemma device_le_total (a b : DeviceInfo) :
    device_le a b = true ∨ device_le b a = true := by
  simp only [device_le, decide_eq_true_eq]
  exact keyLe_total _ _

lemma device_le_trans (a b c : DeviceInfo) :
    device_le a b = true → device_le b c = true → device_le a c = true := by
  simp only [device_le, decide_eq_true_eq]
  exact keyLe_trans _ _ _

/-- Whether the registry marks the product id of a device as wired. -/
def device_is_wired (d : DeviceInfo) : Bool :=
  match MouseConfig.from_product_id d.product_id with
  | some c => c.is_wired
  | none => false

lemma device_key_fst_of_wired (d : DeviceInfo)
    (h : device_is_wired d = true) : (device_key d).1 = 0 := by
  unfold device_is_wired at h
  unfold device_key
  cases hc : MouseConfig.from_product_id d.product_id with
  | none => rw [hc] at h; simp at h
  | some c => rw [hc] at h; simp at h; simp [h]

lemma wired_of_device_key_fst_zero (d : DeviceInfo)
    (h : (device_key d).1 = 0) : device_is_wired d = true := by
  unfold device_key at h
  unfold device_is_wired
  cases hc : MouseConfig.from_product_id d.product_id with
  | none => rw [hc] at h; simp at h
  | some c =>
      rw [hc] at h
      by_cases hw : c.is_wired <;> simp_all

lemma device_key_fst_of_wireless (d : DeviceInfo)
    (hm : device_matches d = true) (h : device_is_wired d = false) :
    (device_key d).1 = 1 := by
  have hpid : MouseConfig.all_product_ids.contains d.product_id = true := by
    simp only [device_matches, Bool.and_eq_true] at hm
    exact hm.1.2
  simp only [MouseConfig.all_product_ids, SUPPORTED_MICE, List.map_cons,
    List.map_nil, List.contains_cons, List.contains_nil, Bool.or_eq_true,
    beq_iff_eq] at hpid
  unfold device_is_wired at h
  unfold device_key
  rcases hpid with hp | hp | hp | hp | hp <;>
    simp_all [MouseConfig.from_product_id, SUPPORTED_MICE, List.find?]

lemma device_key_snd (d : DeviceInfo) : (device_key d).2 = d.product_id := rfl

/-- Claim C4: `find_device` retains exactly the devices with vendor id
0x258A, a supported product id and interface number 0x02; it returns none
exactly when no device passes that filter; whenever the filtered set holds a
wired match the selected device is wired; and when the selected device is
wireless it has the least product id among the wireless matches — so the
selection is deterministic for a fixed device list. -/
theorem find_device_selection (devices : List DeviceInfo) :
    (find_device devices = none ↔ devices.filter device_matches = []) ∧
    (∀ d, find_device devices = some d →
      d ∈ devices ∧ device_matches d = true) ∧
    (∀ d e, find_device devices = some d → e ∈ devices →
      device_matches e = true → device_is_wired e = true →
      device_is_wired d = true) ∧
    (∀ d e, find_device devices = some d → e ∈ devices →
      device_matches e = true → device_is_wired d = false →
      device_is_wired e = false → d.product_id ≤ e.product_id) := by
  have hmain : ∀ d, find_device devices = some d →
      d ∈ devices.filter device_matches ∧
      ∀ e ∈ devices.filter device_matches, device_le d e = true := by
    intro d hd
    unfold find_device at hd
    cases hL : devices.filter device_matches with
    | nil => rw [hL] at hd; simp [rust_min_by] at hd
    | cons a l =>
        rw [hL] at hd
        simp only [rust_min_by, Option.some.injEq] at hd
        subst hd
        constructor
        · rcases minFold_mem device_le a l with h | h
          · rw [h]; exact List.mem_cons_self a l
          · exact List.mem_cons_of_mem a h
        · intro e he
          obtain ⟨h1, h2⟩ := minFold_le device_le device_le_total
            device_le_trans a l
          rcases List.mem_cons.mp he with rfl | he
          · exact h1
          · exact h2 e he
  refine ⟨?_, ?_, ?_, ?_⟩
  · cases hL : devices.filter device_matches with
    | nil => simp [find_device, rust_min_by, hL]
    | cons a l => simp [find_device, rust_min_by, hL]
  · intro d hd
    have := (hmain d hd).1
    exact List.mem_filter.mp this
  · intro d e hd he hme hwe
    have hle : device_le d e = true :=
      (hmain d hd).2 e (List.mem_filter.mpr ⟨he, hme⟩)
    have hkey : keyLe (device_key d) (device_key e) := by
      simpa [device_le] using hle
    have hez : (device_key e).1 = 0 := device_key_fst_of_wired e hwe
    have hdz : (device_key d).1 = 0 := by
      unfold keyLe at hkey; omega
    exact wired_of_device_key_fst_zero d hdz
  · intro d e hd he hme hwd hwe
    have hdm : device_matches d = true :=
      (List.mem_filter.mp (hmain d hd).1).2
    have hle : device_le d e = true :=
      (hmain d hd).2 e (List.mem_filter.mpr ⟨he, hme⟩)
    have hkey : keyLe (device_key d) (device_key e) := by
      simpa [device_le] using hle
    have hd1 : (device_key d).1 = 1 := device_key_fst_of_wireless d hdm hwd
    have he1 : (device_key e).1 = 1 := device_key_fst_of_wireless e hme hwe
    have := device_key_snd d
    have := device_key_snd e
    unfold keyLe at hkey
    omega

/-- Witness for C4: with a wireless Model O Wireless (0x2022) and a wired
Model O Wired (0x2011) both enumerated on interface 2, the wired one is
selected, and the selected device is indeed wired. -/
theorem find_device_selection_witness :
    find_device [⟨0x258A, 0x2022, 2⟩, ⟨0x258A, 0x2011, 2⟩] =
      some ⟨0x258A, 0x2011, 2⟩ ∧
    device_is_wired (⟨0x258A, 0x2011, 2⟩ : DeviceInfo) = true := by
  refine ⟨by decide, ?_⟩
  exact (find_device_selection
      [⟨0x258A, 0x2022, 2⟩, ⟨0x258A, 0x2011, 2⟩]).2.2.1
    ⟨0x258A, 0x2011, 2⟩ ⟨0x258A, 0x2011, 2⟩ (by decide) (by decide)
    (by decide) (by decide)

/-- Claim C5: the decoded firmware version string is the dotted join of
bytes 7, 8, 9 and 10 rendered as decimal integers; bytes 1, 2, 3, 4 at those
offsets give "1.2.3.4" and an all-zero buffer gives "0.0.0.0". -/
theorem firmware_version_decode (bfr_r : Buffer) :
    firmware_version_string bfr_r =
      String.intercalate "."
        (List.map Nat.repr [bfr_r 7, bfr_r 8, bfr_r 9, bfr_r 10]) ∧
    firmware_version_string
      (fun i => if i = 7 then 1 else if i = 8 then 2
                else if i = 9 then 3 else if i = 10 then 4 else 0) =
      "1.2.3.4" ∧
    firmware_version_string (fun _ => 0) = "0.0.0.0" := by
  refine ⟨?_, by decide, by decide⟩
  simp only [firmware_version_string, String.intercalate, List.map_cons,
    List.map_nil, String.intercalate.go]

/-- Counterexample to C6 as stated: a Charging value with percentage 100
selects "battery_100", not the charging icon, so Charging does not select
the charging icon regardless of percentage. -/
theorem icon_override_counterexample :
    get_icon_name (.Charging 100 ⟨none⟩) = "battery_100" ∧
    get_icon_name (.Charging 100 ⟨none⟩) ≠ "battery_charging" := by
  constructor
  · decide
  · decide

/-- Claim C6 amended: Normal buckets its percentage with inclusive upper
boundaries at 25, 50 and 75; FullyCharged always selects the full icon; and
Charging selects the charging icon only for percentages up to 99, selecting
the full icon at 100 and above. -/
theorem icon_bucketing_amended (p : Nat) (m : MouseModel) :
    (p ≤ 25 → get_icon_name (.Normal p m) = "battery_0") ∧
    (26 ≤ p → p ≤ 50 → get_icon_name (.Normal p m) = "battery_25") ∧
    (51 ≤ p → p ≤ 75 → get_icon_name (.Normal p m) = "battery_50") ∧
    (76 ≤ p → get_icon_name (.Normal p m) = "battery_75") ∧
    (p ≤ 99 → get_icon_name (.Charging p m) = "battery_charging") ∧
    (100 ≤ p → get_icon_name (.Charging p m) = "battery_100") ∧
    get_icon_name (.FullyCharged m) = "battery_100" := by
  refine ⟨?_, ?_, ?_, ?_, ?_, ?_, rfl⟩
  · intro h; simp [get_icon_name, h]
  · intro h1 h2
    have hn : ¬ p ≤ 25 := by omega
    simp [get_icon_name, hn, h2]
  · intro h1 h2
    have hn1 : ¬ p ≤ 25 := by omega
    have hn2 : ¬ p ≤ 50 := by omega
    simp [get_icon_name, hn1, hn2, h2]
  · intro h
    have hn1 : ¬ p ≤ 25 := by omega
    have hn2 : ¬ p ≤ 50 := by omega
    have hn3 : ¬ p ≤ 75 := by omega
    simp [get_icon_name, hn1, hn2, hn3]
  · intro h
    have hn : ¬ 100 ≤ p := by omega
    simp [get_icon_name, hn]
  · intro h; simp [get_icon_name, h]

/-- Witness for the amended C6: percentage 42 buckets to "battery_25". -/
theorem icon_bucketing_amended_witness :
    get_icon_name (.Normal 42 ⟨none⟩) = "battery_25" :=
  (icon_bucketing_amended 42 ⟨none⟩).2.1 (by decide) (by decide)

/-- Counterexample to C7 as stated: a status carrying an unrecognized model
renders the name "Unknown Mouse", not the literal "Mouse" the claim
predicts — the "Mouse" fallback only fires for NotFound, whose tooltip never
consults the model. -/
theorem tooltip_fallback_counterexample :
    get_tooltip (.Unknown 0 0 ⟨none⟩) = "Unknown Mouse: Unknown status" ∧
    get_tooltip (.Unknown 0 0 ⟨none⟩) ≠ "Mouse: Unknown status" := by
  constructor
  · decide
  · decide

/-- Claim C7 amended: the tooltip embeds the resolved mouse name, which for
an unrecognized carried model is "Unknown Mouse" (the literal "Mouse"
appears only in the NotFound tooltip), followed by the status-specific
suffix: the percentage and "%" for Normal, the percentage and " (Charging)"
for Charging, "Fully Charged", "Mouse is asleep", "Waking up...",
"Device not found" and "Unknown status" for the remaining variants. -/
theorem tooltip_spec_amended (p rs rb : Nat) (m : MouseModel) :
    get_tooltip (.Normal p m) = m.name ++ ": " ++ Nat.repr p ++ "%" ∧
    get_tooltip (.Charging p m) =
      m.name ++ ": " ++ Nat.repr p ++ "% (Charging)" ∧
    get_tooltip (.FullyCharged m) = m.name ++ ": Fully Charged" ∧
    get_tooltip (.Asleep m) = m.name ++ ": Mouse is asleep" ∧
    get_tooltip (.WakingUp m) = m.name ++ ": Waking up..." ∧
    get_tooltip .NotFound = "Mouse: Device not found" ∧
    get_tooltip (.Unknown rs rb m) = m.name ++ ": Unknown status" ∧
    (m.config_index = none → m.name = "Unknown Mouse") := by
  refine ⟨?_, ?_, ?_, ?_, ?_, rfl, ?_, ?_⟩
  · simp [get_tooltip, get_mouse_model]
  · simp [get_tooltip, get_mouse_model]
  · simp [get_tooltip, get_mouse_model]
  · simp [get_tooltip, get_mouse_model]
  · simp [get_tooltip, get_mouse_model]
  · simp [get_tooltip, get_mouse_model]
  · intro h; simp [MouseModel.name, MouseModel.config, h]

/-- Witness for the amended C7: the unrecognized model renders as
"Unknown Mouse". -/
theorem tooltip_spec_amended_witness :
    MouseModel.name ⟨none⟩ = "Unknown Mouse" :=
  (tooltip_spec_amended 0 0 0 ⟨none⟩).2.2.2.2.2.2.2 rfl

/-- Claim C8: when the feature-report send fails, or the subsequent read
fails, the battery query returns Unknown with both raw fields 0 (carrying
the located model) and the firmware query returns none; both functions are
total, so the failure is surfaced as a value and never as a thrown error. -/
theorem transport_failure_degrades (send_ok : Bool) (rd : Option Buffer)
    (wired : Bool) (m : MouseModel) (devices : List DeviceInfo)
    (fw_send_ok : Bool) (fw_rd : Option Buffer) :
    (send_ok = false →
      read_battery_status send_ok rd wired m = .Unknown 0 0 m) ∧
    (rd = none →
      read_battery_status send_ok rd wired m = .Unknown 0 0 m) ∧
    (fw_send_ok = false →
      get_firmware_version devices true fw_send_ok fw_rd = none) ∧
    (fw_rd = none →
      get_firmware_version devices true fw_send_ok fw_rd = none) := by
  refine ⟨?_, ?_, ?_, ?_⟩
  · intro h; simp [read_battery_status, h]
  · intro h; cases send_ok <;> simp [read_battery_status, h]
  · intro h
    cases hf : find_device devices <;> simp [get_firmware_version, hf, h]
  · intro h
    cases hf : find_device devices <;> cases fw_send_ok <;>
      simp [get_firmware_version, hf, h]

/-- Witness for C8: a failed send yields Unknown with zeroed raw fields, and
a failed firmware read yields none. -/
theorem transport_failure_degrades_witness :
    read_battery_status false none false ⟨some 1⟩ = .Unknown 0 0 ⟨some 1⟩ ∧
    get_firmware_version [⟨0x258A, 0x2011, 2⟩] true true none = none := by
  have h := transport_failure_degrades false none false ⟨some 1⟩
    [⟨0x258A, 0x2011, 2⟩] true none
  exact ⟨h.1 rfl, h.2.2.2 rfl⟩

/-- Claim C9: when the locator finds a device but opening its handle fails,
get_battery_status returns NotFound — the open failure is classified like
device absence, not like a transport failure (which would yield Unknown). -/
theorem open_failure_not_found (devices : List DeviceInfo) (d : DeviceInfo)
    (send_ok : Bool) (rd : Option Buffer)
    (hfind : find_device devices = some d) :
    get_battery_status devices false send_ok rd = .NotFound := by
  simp [get_battery_status, hfind]

/-- Witness for C9: a wired mouse is enumerated and found, the open fails,
and the result is NotFound. -/
theorem open_failure_not_found_witness :
    get_battery_status [⟨0x258A, 0x2011, 2⟩] false true none = .NotFound :=
  open_failure_not_found [⟨0x258A, 0x2011, 2⟩] ⟨0x258A, 0x2011, 2⟩ true none
    (by decide)

/-- Claim C10: serializing a MouseModel to its name string and
deserializing that string back is the identity, for recognized models
(any in-range config index) as well as the unrecognized model; this rests
on the registry names being pairwise distinct and distinct from
"Unknown Mouse", which the theorem also records. -/
theorem mouse_model_serde_roundtrip (m : MouseModel)
    (h : ∀ i, m.config_index = some i → i < SUPPORTED_MICE.length) :
    MouseModel.deserialize (MouseModel.serialize m) = m ∧
    (SUPPORTED_MICE.map (fun c => c.name)).Nodup ∧
    ∀ c ∈ SUPPORTED_MICE, c.name ≠ "Unknown Mouse" := by
  refine ⟨?_, by decide, by decide⟩
  obtain ⟨ci⟩ := m
  cases ci with
  | none => decide
  | some i =>
      have hi : i < SUPPORTED_MICE.length := h i rfl
      simp only [SUPPORTED_MICE, List.length_cons, List.length_nil] at hi
      interval_cases i <;> decide

/-- Witness for C10: the round trip at the Model O PRO Wireless entry. -/
theorem mouse_model_serde_roundtrip_witness :
    MouseModel.deserialize (MouseModel.serialize ⟨some 2⟩) = ⟨some 2⟩ :=
  (mouse_model_serde_roundtrip ⟨some 2⟩ (by
    intro i hi
    simp only [Option.some.injEq] at hi
    subst hi
    decide)).1

end GloriousMouse
